import Mathlib

/-!
Shallow embedding of the two-stage video pipeline: resilient frame
extraction (`Streamer.py`, `stream_video`) and background-differencing
motion detection (`detector.py`, `detect_motion_in_frames`), together
with proofs about the embedded code.

Modelling conventions:
* OpenCV's decoder is modelled by an environment holding the results of
  successive `cap.read()` calls (`none` = failed read); once the list is
  exhausted every further read fails, as a decoder at end of stream does.
* Filesystem queries (`os.path.exists`, `os.path.isdir`, `os.listdir`,
  `os.path.getsize`) are fields of the environment; `cv2.imwrite` and
  `time.sleep` are logged as observable effects.
* Machine floats appear only in the size check `size_bytes / 1024**3 >
  max_video_size_gb`; both operands are exactly representable for any
  realistic byte count, so the comparison is modelled exactly over `ℚ`.
* `while` loops are modelled with an explicit fuel parameter; with fuel
  exhausted the run ends in the marker outcome `fuelOut`, which no
  theorem below ever treats as a normal result.
-/

namespace Streamer

/-- The Python exceptions `stream_video` can raise. -/
inductive PyErr where
  | fileNotFoundError
  | valueErrorTooLarge
  | ioErrorOpen
  | valueErrorFpsZero
  | runtimeErrorTooManyFailures
  deriving DecidableEq, Repr

/-- Result of a run: the Python return value (`ok none` models the bare
`return`, `ok (some p)` models `return output_path`), a raised
exception, or fuel exhaustion (a modelling artifact only). -/
inductive Outcome where
  | ok (ret : Option String)
  | err (e : PyErr)
  | fuelOut
  deriving DecidableEq, Repr

/-- The observable effects of a run: seconds slept (in order), the
`cv2.imwrite` calls as (frame index, file path, frame), the number of
`cap.read()` calls, and whether a `cv2.VideoCapture` was constructed. -/
structure RunState (α : Type) where
  sleeps : List Nat
  writes : List (Nat × String × α)
  readCalls : Nat
  openedCapture : Bool
  deriving DecidableEq, Repr

/-- What a run of `stream_video` observes of the outside world.  `reads`
lists the results of successive `cap.read()` calls; a `none` entry is a
failed read, and once the list is exhausted every further read fails. -/
structure Env (α : Type) where
  pathExists : String → Bool
  isdir : String → Bool
  listdir : String → List String
  getsize : String → Option Nat
  openOk : Bool
  fps : ℚ
  frameCount : Int
  reads : List (Option α)

def bumpReads {α : Type} (n : Nat) (st : RunState α) : RunState α :=
  ⟨st.sleeps, st.writes, st.readCalls + n, st.openedCapture⟩

def addSleeps {α : Type} (l : List Nat) (st : RunState α) : RunState α :=
  ⟨st.sleeps ++ l, st.writes, st.readCalls, st.openedCapture⟩

def addWrite {α : Type} (i : Nat) (p : String) (f : α) (st : RunState α) : RunState α :=
  ⟨st.sleeps, st.writes ++ [(i, p, f)], st.readCalls, st.openedCapture⟩

/-- Python `f"{n:05d}"`: the decimal digits of `n`, left-padded with
zeros to at least five characters. -/
def pad5 (n : Nat) : String :=
  String.mk (List.replicate (5 - (toString n).length) '0') ++ toString n

/-- The path `os.path.join(output_path, f"frame_{idx:05d}.jpg")`. -/
def framePath (out : String) (idx : Nat) : String :=
  out ++ "/frame_" ++ pad5 idx ++ ".jpg"

/-- `os.path.basename`, for paths with `/` as separator. -/
def basename (p : String) : String :=
  String.mk (p.toList.foldl (fun acc c => if c = '/' then [] else acc ++ [c]) [])

/-- The module-level constant `frames_dir = 'frames_opencv'`. -/
def frames_dir : String := "frames_opencv"

/-- `output_path = os.path.join(frames_dir, os.path.basename(video_path))`. -/
def outputPathOf (video_path : String) : String :=
  frames_dir ++ "/" ++ basename video_path

/-- One `cap.read()` against the remaining read results. -/
def capRead {α : Type} (rem : List (Option α)) : Option α × List (Option α) :=
  match rem with
  | [] => (none, [])
  | r :: rest => (r, rest)

/-- The retry loop of `stream_video`: up to `retriesLeft` further reads,
sleeping `backoff` seconds (doubling each time) before each.  Returns the
final read result, the remaining read results, the sleeps performed and
the number of read calls made. -/
def retryAux {α : Type} (retriesLeft backoff : Nat) (rem : List (Option α)) :
    Option α × List (Option α) × List Nat × Nat :=
  match retriesLeft with
  | 0 => (none, rem, [], 0)
  | k + 1 =>
    match capRead rem with
    | (some f, rem1) => (some f, rem1, [backoff], 1)
    | (none, rem1) =>
      match retryAux k (backoff * 2) rem1 with
      | (res, rem2, sl, rc) => (res, rem2, backoff :: sl, rc + 1)

/-- The `while True:` loop of `stream_video`.  State: remaining read
results, `idx`, `consecutive_skipped`, and the effect log.  On a
first-attempt success the frame is written and `idx` advances, but
`consecutive_skipped` is left unchanged (the source resets it only on a
retry success).  On a failure with `idx < frame_count` the retry loop
runs: a retry success writes the frame and resets the counter; full
exhaustion increments the counter, raising `RuntimeError` when it
reaches `max_consecutive_skips = 4`, and otherwise skips the index.  On
a failure with `idx ≥ frame_count` the loop ends, returning `out`. -/
def streamLoop {α : Type} (fc : Int) (out : String) :
    Nat → List (Option α) → Nat → Nat → RunState α → RunState α × Outcome
  | 0, _, _, _, st => (st, Outcome.fuelOut)
  | fuel + 1, rem, idx, consec, st =>
    match capRead rem with
    | (some f, rem1) =>
      streamLoop fc out fuel rem1 (idx + 1) consec
        (addWrite idx (framePath out idx) f (bumpReads 1 st))
    | (none, rem1) =>
      if (idx : Int) < fc then
        match retryAux 3 1 rem1 with
        | (some f, rem2, sl, _rc) =>
          streamLoop fc out fuel rem2 (idx + 1) 0
            (addWrite idx (framePath out idx) f (addSleeps sl (bumpReads 4 st)))
        | (none, rem2, sl, _rc) =>
          if 4 ≤ consec + 1 then
            (addSleeps sl (bumpReads 4 st), Outcome.err PyErr.runtimeErrorTooManyFailures)
          else
            streamLoop fc out fuel rem2 (idx + 1) (consec + 1) (addSleeps sl (bumpReads 4 st))
      else (bumpReads 1 st, Outcome.ok (some out))

/-- `stream_video(video_path, min_width=640, min_height=360,
max_video_size_gb=1)` from `Streamer.py`.  The source's defaults are
passed explicitly at call sites.  Note two faithful quirks of the
source: the already-extracted check returns bare `None`, and the size
check reads the byte size of the hard-coded literal `'dog_video.MP4'`,
not of `video_path`. -/
def stream_video {α : Type} (env : Env α) (video_path : String)
    (min_width min_height : Nat) (max_video_size_gb : ℚ) (fuel : Nat) :
    RunState α × Outcome :=
  if env.pathExists video_path = false then
    (⟨[], [], 0, false⟩, Outcome.err PyErr.fileNotFoundError)
  else
    if env.isdir (outputPathOf video_path) &&
        !(env.listdir (outputPathOf video_path)).isEmpty then
      (⟨[], [], 0, false⟩, Outcome.ok none)
    else
      match env.getsize "dog_video.MP4" with
      | none => (⟨[], [], 0, false⟩, Outcome.err PyErr.fileNotFoundError)
      | some size_bytes =>
        if max_video_size_gb < (size_bytes : ℚ) / 1024 ^ 3 then
          (⟨[], [], 0, false⟩, Outcome.err PyErr.valueErrorTooLarge)
        else
          if env.openOk = false then
            (⟨[], [], 0, true⟩, Outcome.err PyErr.ioErrorOpen)
          else if env.fps = 0 then
            (⟨[], [], 0, true⟩, Outcome.err PyErr.valueErrorFpsZero)
          else
            streamLoop env.frameCount (outputPathOf video_path) fuel env.reads 0 0 ⟨[], [], 0, true⟩

end Streamer

namespace Streamer

/-- C10: `stream_video` never reads its `min_width` and `min_height`
parameters, so the run — artifacts written, sleeps, reads, return value
and errors alike — is identical for any two values of each. -/
theorem c10_min_width_height_unused {α : Type} (env : Env α) (video_path : String)
    (mw mh mw' mh' : Nat) (g : ℚ) (fuel : Nat) :
    stream_video env video_path mw mh g fuel = stream_video env video_path mw' mh' g fuel :=
  rfl

/-- A run whose input path exists, whose output directory check fails,
and which passes the size, open and fps guards, is the decode loop from
index 0 with counter 0 and an empty log (capture opened). -/
theorem stream_video_loop_entry {α : Type} (env : Env α) (video_path : String)
    (mw mh : Nat) (g : ℚ) (fuel : Nat) (size_bytes : Nat)
    (h1 : env.pathExists video_path = true)
    (h2 : (env.isdir (outputPathOf video_path) &&
            !(env.listdir (outputPathOf video_path)).isEmpty) = false)
    (h3 : env.getsize "dog_video.MP4" = some size_bytes)
    (h4 : ¬ g < (size_bytes : ℚ) / 1024 ^ 3)
    (h5 : env.openOk = true)
    (h6 : ¬ env.fps = 0) :
    stream_video env video_path mw mh g fuel =
      streamLoop env.frameCount (outputPathOf video_path) fuel env.reads 0 0 ⟨[], [], 0, true⟩ := by
  unfold stream_video
  rw [h1, h3]
  simp [h2, h4, h5, h6]

/-- C4 (amended): if the destination directory already exists and is
non-empty, `stream_video` is a no-op — no `VideoCapture` is constructed,
no read, write or sleep happens — but it executes a bare `return`,
i.e. it yields `None`, not the destination path a completed run
returns. -/
theorem c4_skip_is_noop_returning_none {α : Type} (env : Env α) (video_path : String)
    (mw mh : Nat) (g : ℚ) (fuel : Nat)
    (hex : env.pathExists video_path = true)
    (hdir : env.isdir (outputPathOf video_path) = true)
    (hne : (env.listdir (outputPathOf video_path)).isEmpty = false) :
    stream_video env video_path mw mh g fuel = (⟨[], [], 0, false⟩, Outcome.ok none) := by
  unfold stream_video
  rw [hex]
  simp [hdir, hne]

/-- Environment for the C4 witness and counterexample: the destination
directory for `v.mp4` already holds a frame file. -/
def envSkip : Env Nat :=
  ⟨fun _ => true, fun _ => true, fun _ => ["frame_00000.jpg"], fun _ => some 1000, true, 30, 0, []⟩

/-- Environment of a fresh, completed extraction of `v.mp4`: empty
destination, tiny file, decodable, zero frames reported. -/
def envFresh : Env Nat :=
  ⟨fun _ => true, fun _ => false, fun _ => [], fun _ => some 1000, true, 30, 0, []⟩

theorem c4_skip_witness :
    envSkip.pathExists "v.mp4" = true ∧
    envSkip.isdir (outputPathOf "v.mp4") = true ∧
    (envSkip.listdir (outputPathOf "v.mp4")).isEmpty = false ∧
    stream_video envSkip "v.mp4" 640 360 1 9 = (⟨[], [], 0, false⟩, Outcome.ok none) :=
  ⟨rfl, rfl, rfl, c4_skip_is_noop_returning_none envSkip "v.mp4" 640 360 1 9 rfl rfl rfl⟩

/-- C4, counterexample to the claim as stated: re-invocation against a
non-empty destination returns `None` (bare `return`), while the
completed run it is compared to returns the destination path — the two
return values differ. -/
theorem c4_counterexample_return_value :
    (stream_video envSkip "v.mp4" 640 360 1 9).2 = Outcome.ok none ∧
    (stream_video envFresh "v.mp4" 640 360 1 9).2 = Outcome.ok (some "frames_opencv/v.mp4") ∧
    Outcome.ok none ≠ Outcome.ok (some "frames_opencv/v.mp4") := by
  refine ⟨rfl, ?_, by decide⟩
  rw [stream_video_loop_entry envFresh "v.mp4" 640 360 1 9 1000 rfl rfl rfl (by norm_num) rfl (by norm_num [envFresh])]
  rfl

/-- Environment exhibiting the missing counter reset (C2): retries are
exhausted at indices 0, 1 and 2 (twelve failed reads), index 3 decodes
on the first attempt, and the stream then fails for good. -/
def envC2 : Env Nat :=
  ⟨fun _ => true, fun _ => false, fun _ => [], fun _ => some 1000, true, 30, 100,
   List.replicate 12 none ++ [some 7]⟩

/-- C2 fails on the code: in `envC2` the frame at index 3 is decoded on
the first attempt, emitted and persisted — yet `consecutive_skipped` is
not reset (the source resets it only on a retry success), so the single
exhausted failure at index 4 pushes the counter from 3 to 4 and the run
aborts with `RuntimeError`.  Had the counter been 0 after the emitted
frame, as the claim states, the run would have continued with counter 1. -/
theorem c2_counter_not_reset_on_first_attempt_success :
    (stream_video envC2 "v.mp4" 640 360 1 50).2 = Outcome.err PyErr.runtimeErrorTooManyFailures ∧
    (stream_video envC2 "v.mp4" 640 360 1 50).1.writes.map (fun w => w.1) = [3] ∧
    (stream_video envC2 "v.mp4" 640 360 1 50).1.sleeps =
      [1, 2, 4, 1, 2, 4, 1, 2, 4, 1, 2, 4] := by
  rw [stream_video_loop_entry envC2 "v.mp4" 640 360 1 50 1000 rfl rfl rfl (by norm_num) rfl (by norm_num [envC2])]
  refine ⟨rfl, rfl, rfl⟩

/-- Environment exhibiting the misdirected size guard (C3): the input
`big.mp4` is 3 GiB, while the hard-coded `dog_video.MP4` the guard
actually measures is 1000 bytes. -/
def envC3 : Env Nat :=
  ⟨fun _ => true, fun _ => false, fun _ => [],
   fun p => if p = "dog_video.MP4" then some 1000 else some (3 * 1024 ^ 3),
   true, 30, 0, []⟩

theorem capRead_of_take_none {α : Type} (rem : List (Option α))
    (h : ∀ x ∈ rem.take 1, x = none) : capRead rem = (none, rem.drop 1) := by
  cases rem with
  | nil => rfl
  | cons a t =>
    have ha : a = none := h a (by simp)
    subst ha
    rfl

theorem take_none_split {α : Type} (rem : List (Option α)) (m n : Nat)
    (h : ∀ x ∈ rem.take (m + n), x = none) :
    (∀ x ∈ rem.take m, x = none) ∧ (∀ x ∈ (rem.drop m).take n, x = none) := by
  rw [List.take_add] at h
  exact ⟨fun x hx => h x (List.mem_append_left _ hx),
         fun x hx => h x (List.mem_append_right _ hx)⟩

/-- With the next three reads failing, the retry loop performs exactly
three retries, sleeping 1, 2 and 4 seconds before them, and fails. -/
theorem retryAux_three_failures {α : Type} (rem : List (Option α))
    (h : ∀ x ∈ rem.take 3, x = none) :
    retryAux 3 1 rem = (none, rem.drop 3, [1, 2, 4], 3) := by
  rcases rem with _ | ⟨a, _ | ⟨b, _ | ⟨c, t⟩⟩⟩
  · rfl
  · have ha : a = none := h a (by simp)
    subst ha; rfl
  · have ha : a = none := h a (by simp)
    have hb : b = none := h b (by simp)
    subst ha; subst hb; rfl
  · have ha : a = none := h a (by simp)
    have hb : b = none := h b (by simp)
    have hc : c = none := h c (by simp)
    subst ha; subst hb; subst hc; rfl

/-- One full iteration of the decode loop at a failing index below the
frame count, with the counter still under the ceiling afterwards: four
failed reads, sleeps 1, 2, 4, counter incremented, index advanced. -/
theorem streamLoop_skip_step {α : Type} (fc : Int) (out : String) (fuel idx consec : Nat)
    (rem : List (Option α)) (st : RunState α)
    (hn : ∀ x ∈ rem.take 4, x = none) (hidx : (idx : Int) < fc) (hc : consec + 1 < 4) :
    streamLoop fc out (fuel + 1) rem idx consec st =
      streamLoop fc out fuel (rem.drop 4) (idx + 1) (consec + 1)
        (addSleeps [1, 2, 4] (bumpReads 4 st)) := by
  obtain ⟨h1, h3⟩ := take_none_split rem 1 3 hn
  rw [streamLoop, capRead_of_take_none rem h1]
  dsimp only
  rw [retryAux_three_failures (rem.drop 1) h3]
  dsimp only
  rw [List.drop_drop]
  simp [hidx, Nat.not_le_of_lt hc]

/-- One full iteration of the decode loop at a failing index below the
frame count, with the counter reaching the ceiling: the run aborts with
`RuntimeError` after the three retries. -/
theorem streamLoop_abort_step {α : Type} (fc : Int) (out : String) (fuel idx consec : Nat)
    (rem : List (Option α)) (st : RunState α)
    (hn : ∀ x ∈ rem.take 4, x = none) (hidx : (idx : Int) < fc) (hc : 4 ≤ consec + 1) :
    streamLoop fc out (fuel + 1) rem idx consec st =
      (addSleeps [1, 2, 4] (bumpReads 4 st), Outcome.err PyErr.runtimeErrorTooManyFailures) := by
  obtain ⟨h1, h3⟩ := take_none_split rem 1 3 hn
  rw [streamLoop, capRead_of_take_none rem h1]
  dsimp only
  rw [retryAux_three_failures (rem.drop 1) h3]
  dsimp only
  simp [hidx, hc]

/-- C1 (amended): from any loop state whose consecutive-skip counter is
0, if the decoder fails on the next sixteen reads and the indices
`idx .. idx+4` are all below the reported frame count, the loop retries
exactly three times at each of the four indices `idx .. idx+3` —
sleeping 1, 2 and 4 seconds before the respective retries — and raises
`RuntimeError` when the counter reaches 4, i.e. after the fourth
consecutive exhaustively-retried failure; index `idx+4` is never read
and no frame is written.  (The claim as frozen omits the counter-is-0
proviso; `c1_counterexample_prior_failures` shows it cannot be
dropped, since a first-attempt success does not reset the counter.) -/
theorem c1_four_consecutive_exhausted_failures_abort {α : Type} (fc : Int) (out : String)
    (fuel idx : Nat) (rem : List (Option α)) (st : RunState α)
    (hn : ∀ x ∈ rem.take 16, x = none)
    (hidx : (idx : Int) + 4 < fc) (hfuel : 4 ≤ fuel) :
    streamLoop fc out fuel rem idx 0 st =
      (⟨st.sleeps ++ [1, 2, 4, 1, 2, 4, 1, 2, 4, 1, 2, 4], st.writes, st.readCalls + 16,
        st.openedCapture⟩,
       Outcome.err PyErr.runtimeErrorTooManyFailures) := by
  obtain ⟨f, rfl⟩ : ∃ f, fuel = f + 4 := ⟨fuel - 4, by omega⟩
  have h16 : (16 : Nat) = 4 + 12 := by norm_num
  obtain ⟨ha, hrest⟩ := take_none_split rem 4 12 (h16 ▸ hn)
  have h12 : (12 : Nat) = 4 + 8 := by norm_num
  obtain ⟨hb, hrest2⟩ := take_none_split (rem.drop 4) 4 8 (h12 ▸ hrest)
  have h8 : (8 : Nat) = 4 + 4 := by norm_num
  obtain ⟨hc', hd⟩ := take_none_split ((rem.drop 4).drop 4) 4 4 (h8 ▸ hrest2)
  have e1 : streamLoop fc out (f + 4) rem idx 0 st =
      streamLoop fc out (f + 3) (rem.drop 4) (idx + 1) 1
        (addSleeps [1, 2, 4] (bumpReads 4 st)) := by
    have : f + 4 = (f + 3) + 1 := by omega
    rw [this]
    exact streamLoop_skip_step fc out (f + 3) idx 0 rem st ha (by omega) (by omega)
  have e2 : streamLoop fc out (f + 3) (rem.drop 4) (idx + 1) 1
        (addSleeps [1, 2, 4] (bumpReads 4 st)) =
      streamLoop fc out (f + 2) ((rem.drop 4).drop 4) (idx + 1 + 1) 2
        (addSleeps [1, 2, 4] (bumpReads 4 (addSleeps [1, 2, 4] (bumpReads 4 st)))) := by
    have : f + 3 = (f + 2) + 1 := by omega
    rw [this]
    exact streamLoop_skip_step fc out (f + 2) (idx + 1) 1 (rem.drop 4) _ hb (by omega) (by omega)
  have e3 : streamLoop fc out (f + 2) ((rem.drop 4).drop 4) (idx + 1 + 1) 2
        (addSleeps [1, 2, 4] (bumpReads 4 (addSleeps [1, 2, 4] (bumpReads 4 st)))) =
      streamLoop fc out (f + 1) (((rem.drop 4).drop 4).drop 4) (idx + 1 + 1 + 1) 3
        (addSleeps [1, 2, 4] (bumpReads 4 (addSleeps [1, 2, 4]
          (bumpReads 4 (addSleeps [1, 2, 4] (bumpReads 4 st)))))) := by
    have : f + 2 = (f + 1) + 1 := by omega
    rw [this]
    exact streamLoop_skip_step fc out (f + 1) (idx + 1 + 1) 2 ((rem.drop 4).drop 4) _ hc'
      (by push_cast; omega) (by omega)
  have e4 : streamLoop fc out (f + 1) (((rem.drop 4).drop 4).drop 4) (idx + 1 + 1 + 1) 3
        (addSleeps [1, 2, 4] (bumpReads 4 (addSleeps [1, 2, 4]
          (bumpReads 4 (addSleeps [1, 2, 4] (bumpReads 4 st)))))) =
      (addSleeps [1, 2, 4] (bumpReads 4 (addSleeps [1, 2, 4] (bumpReads 4 (addSleeps [1, 2, 4]
          (bumpReads 4 (addSleeps [1, 2, 4] (bumpReads 4 st))))))),
       Outcome.err PyErr.runtimeErrorTooManyFailures) := by
    exact streamLoop_abort_step fc out f (idx + 1 + 1 + 1) 3 (((rem.drop 4).drop 4).drop 4) _ hd
      (by push_cast; omega) (by omega)
  rw [e1, e2, e3, e4]
  simp [addSleeps, bumpReads]

theorem c1_witness :
    (∀ x ∈ (List.replicate 16 (none : Option Nat)).take 16, x = none) ∧
    ((0 : Int) + 4 < 10) ∧ (4 ≤ 4) ∧
    streamLoop (α := Nat) 10 "frames_opencv/v.mp4" 4 (List.replicate 16 none) 0 0 ⟨[], [], 0, true⟩ =
      (⟨[] ++ [1, 2, 4, 1, 2, 4, 1, 2, 4, 1, 2, 4], [], 0 + 16, true⟩,
       Outcome.err PyErr.runtimeErrorTooManyFailures) :=
  ⟨by decide, by decide, by decide,
   c1_four_consecutive_exhausted_failures_abort 10 "frames_opencv/v.mp4" 4 0
     (List.replicate 16 none) ⟨[], [], 0, true⟩ (by decide) (by decide) (by decide)⟩

/-- Environment refuting C1 as stated: retries are exhausted at indices
0, 1 and 2, indices 3–7 decode on the first attempt, and every read
from index 8 on fails — so the decoder fails at the five consecutive
indices 8..12, all below the reported frame count of 100. -/
def envC1 : Env Nat :=
  ⟨fun _ => true, fun _ => false, fun _ => [], fun _ => some 1000, true, 30, 100,
   List.replicate 12 none ++ [some 7, some 7, some 7, some 7, some 7]⟩

/-- C1, counterexample to the claim as stated: in `envC1` the decoder
fails at the five consecutive indices 8..12, yet the run retries only
ONE of them (index 8: the final sleeps are a single burst `[1, 2, 4]`)
before raising `RuntimeError`, because the counter was still 3 from the
earlier failures at 0..2 — first-attempt successes at 3..7 never reset
it.  The claim predicts three retries at each of 8..11 (21 sleeps in
total, 33 read calls) before the abort; the code performs 12 sleeps and
21 read calls. -/
theorem c1_counterexample_prior_failures :
    (stream_video envC1 "v.mp4" 640 360 1 50).2 = Outcome.err PyErr.runtimeErrorTooManyFailures ∧
    (stream_video envC1 "v.mp4" 640 360 1 50).1.writes.map (fun w => w.1) = [3, 4, 5, 6, 7] ∧
    (stream_video envC1 "v.mp4" 640 360 1 50).1.sleeps =
      [1, 2, 4, 1, 2, 4, 1, 2, 4, 1, 2, 4] ∧
    (stream_video envC1 "v.mp4" 640 360 1 50).1.readCalls = 21 ∧
    ¬ (stream_video envC1 "v.mp4" 640 360 1 50).1.sleeps.length = 21 := by
  rw [stream_video_loop_entry envC1 "v.mp4" 640 360 1 50 1000 rfl rfl rfl (by norm_num) rfl (by norm_num [envC1])]
  refine ⟨rfl, rfl, rfl, rfl, by decide⟩

/-- C3 fails on the code: the byte size of the path actually passed is
3 GiB, strictly above the default 1 GiB ceiling, yet no size-limit
error is raised and extraction completes normally, because the guard
measures the hard-coded file `'dog_video.MP4'` instead of `video_path`. -/
theorem c3_size_guard_reads_hardcoded_file :
    envC3.getsize "big.mp4" = some (3 * 1024 ^ 3) ∧
    (1 : ℚ) < ((3 * 1024 ^ 3 : Nat) : ℚ) / 1024 ^ 3 ∧
    (stream_video envC3 "big.mp4" 640 360 1 9).2 = Outcome.ok (some "frames_opencv/big.mp4") := by
  refine ⟨rfl, by norm_num, ?_⟩
  rw [stream_video_loop_entry envC3 "big.mp4" 640 360 1 9 1000 rfl rfl rfl (by norm_num) rfl (by norm_num [envC3])]
  rfl

/-- Frames the decode loop writes extend the log with entries whose
indices are strictly increasing and at least the current index, each at
its `framePath`. -/
theorem streamLoop_writes_extend {α : Type} (fc : Int) (out : String) :
    ∀ (fuel : Nat) (rem : List (Option α)) (idx consec : Nat) (st : RunState α),
      ∃ d : List (Nat × String × α),
        (streamLoop fc out fuel rem idx consec st).1.writes = st.writes ++ d ∧
        List.Pairwise (fun a b => a.1 < b.1) d ∧
        ∀ w ∈ d, idx ≤ w.1 ∧ w.2.1 = framePath out w.1 := by
  intro fuel
  induction fuel with
  | zero => exact fun rem idx consec st => ⟨[], by simp [streamLoop], by simp, by simp⟩
  | succ f ih =>
    intro rem idx consec st
    rw [streamLoop]
    rcases hr : capRead rem with ⟨_ | fr, rem1⟩
    · dsimp only
      by_cases hidx : (idx : Int) < fc
      · rw [if_pos hidx]
        rcases hr2 : retryAux 3 1 rem1 with ⟨_ | fr2, rem2, sl, rc⟩
        · dsimp only
          by_cases habort : 4 ≤ consec + 1
          · rw [if_pos habort]
            exact ⟨[], by simp [addSleeps, bumpReads], by simp, by simp⟩
          · rw [if_neg habort]
            obtain ⟨d, hd, hp, hb⟩ := ih rem2 (idx + 1) (consec + 1)
              (addSleeps sl (bumpReads 4 st))
            refine ⟨d, ?_, hp, fun w hw => ⟨Nat.le_of_succ_le (hb w hw).1, (hb w hw).2⟩⟩
            simpa [addSleeps, bumpReads] using hd
        · dsimp only
          obtain ⟨d, hd, hp, hb⟩ := ih rem2 (idx + 1) 0
            (addWrite idx (framePath out idx) fr2 (addSleeps sl (bumpReads 4 st)))
          refine ⟨(idx, framePath out idx, fr2) :: d, ?_, ?_, ?_⟩
          · rw [hd]; simp [addWrite, addSleeps, bumpReads]
          · exact List.pairwise_cons.2 ⟨fun w hw => (hb w hw).1, hp⟩
          · intro w hw
            rcases List.mem_cons.1 hw with h | h
            · subst h; exact ⟨le_rfl, rfl⟩
            · exact ⟨Nat.le_of_succ_le (hb w h).1, (hb w h).2⟩
      · rw [if_neg hidx]
        exact ⟨[], by simp [bumpReads], by simp, by simp⟩
    · dsimp only
      obtain ⟨d, hd, hp, hb⟩ := ih rem1 (idx + 1) consec
        (addWrite idx (framePath out idx) fr (bumpReads 1 st))
      refine ⟨(idx, framePath out idx, fr) :: d, ?_, ?_, ?_⟩
      · rw [hd]; simp [addWrite, bumpReads]
      · exact List.pairwise_cons.2 ⟨fun w hw => (hb w hw).1, hp⟩
      · intro w hw
        rcases List.mem_cons.1 hw with h | h
        · subst h; exact ⟨le_rfl, rfl⟩
        · exact ⟨Nat.le_of_succ_le (hb w h).1, (hb w h).2⟩

/-- Environment for the skipped-slot conjunct of C7: index 0 decodes,
index 1 exhausts its retries, index 2 decodes, and the reported frame
count is 3. -/
def envC7 : Env Nat :=
  ⟨fun _ => true, fun _ => false, fun _ => [], fun _ => some 1000, true, 30, 3,
   [some 5, none, none, none, none, some 6]⟩

/-- C7: every frame a run writes goes to exactly one file
`{destination}/frame_{idx:05d}.jpg` (index zero-padded to five digits
by `pad5`), the written indices are strictly increasing, and — as run
`envC7` shows concretely — an index whose retries are exhausted consumes
its slot but produces no file: the surviving writes there are exactly
indices 0 and 2, with 1 skipped, at their padded paths. -/
theorem c7_artifact_naming_and_ordering {α : Type} (env : Env α) (video_path : String)
    (mw mh : Nat) (g : ℚ) (fuel : Nat) :
    (List.Pairwise (fun a b => a.1 < b.1)
        ((stream_video env video_path mw mh g fuel).1.writes) ∧
      ∀ w ∈ (stream_video env video_path mw mh g fuel).1.writes,
        w.2.1 = framePath (outputPathOf video_path) w.1) ∧
    (stream_video envC7 "v.mp4" 640 360 1 9).1.writes =
      [(0, "frames_opencv/v.mp4/frame_00000.jpg", 5),
       (2, "frames_opencv/v.mp4/frame_00002.jpg", 6)] := by
  constructor
  · unfold stream_video
    split
    · simp
    · split
      · simp
      · split
        · simp
        · split
          · simp
          · split
            · simp
            · split
              · simp
              · obtain ⟨d, hd, hp, hb⟩ := streamLoop_writes_extend env.frameCount
                  (outputPathOf video_path) fuel env.reads 0 0 ⟨[], [], 0, true⟩
                rw [hd]
                exact ⟨by simpa using hp, by simpa using fun w hw => (hb w hw).2⟩
  · rw [stream_video_loop_entry envC7 "v.mp4" 640 360 1 9 1000 rfl rfl rfl (by norm_num) rfl (by norm_num [envC7])]
    rfl

end Streamer

namespace Detector

/-!
Embedding of `detect_motion_in_frames` from `detector.py` (the run used
by `main.py`, i.e. `display=False`; the `display` branch only draws
overlays).  The OpenCV/imutils preprocessing calls — `imutils.resize`,
`cv2.cvtColor`, `cv2.GaussianBlur` — and `cv2.imread` are external
library functions of no arithmetic interest here, so they are
parameters of the embedding; the per-pixel pipeline the claims reason
about (`cv2.absdiff`, `cv2.threshold`, `cv2.dilate`,
`cv2.findContours`, `cv2.contourArea`, `cv2.boundingRect`) is
implemented concretely on grayscale images. -/

/-- A grayscale image: rows of pixel intensities, row-major. -/
abbrev Gray := List (List Nat)

/-- A bounding box (x, y, width, height), x horizontal as in OpenCV. -/
abbrev Box := Nat × Nat × Nat × Nat

/-- Pixel at row `i`, column `j`; 0 outside the image. -/
def pixel (g : Gray) (i j : Nat) : Nat := (g.getD i []).getD j 0

def width (g : Gray) : Nat := (g.headD []).length

def mkImg (h w : Nat) (f : Nat → Nat → Nat) : Gray :=
  (List.range h).map fun i => (List.range w).map fun j => f i j

/-- `cv2.absdiff`: per-pixel absolute difference. -/
def absdiff (a b : Gray) : Gray :=
  mkImg a.length (width a) fun i j => Nat.dist (pixel a i j) (pixel b i j)

/-- `cv2.threshold(…, t, 255, cv2.THRESH_BINARY)[1]`: 255 where the
pixel exceeds `t`, else 0. -/
def threshold (t : Nat) (g : Gray) : Gray :=
  mkImg g.length (width g) fun i j => if t < pixel g i j then 255 else 0

/-- One `cv2.dilate(…, None)` step: 3×3 maximum filter (out-of-range
neighbours read as 0; the clamped `i - 1` at the border duplicates an
in-kernel pixel and cannot change the maximum). -/
def dilate1 (g : Gray) : Gray :=
  mkImg g.length (width g) fun i j =>
    List.foldr max 0
      [pixel g (i - 1) (j - 1), pixel g (i - 1) j, pixel g (i - 1) (j + 1),
       pixel g i (j - 1), pixel g i j, pixel g i (j + 1),
       pixel g (i + 1) (j - 1), pixel g (i + 1) j, pixel g (i + 1) (j + 1)]

/-- `cv2.dilate(…, None, iterations=2)`. -/
def dilate2 (g : Gray) : Gray := dilate1 (dilate1 g)

abbrev Pt := Nat × Nat

abbrev Contour := List Pt

/-- Coordinates of the nonzero pixels, row-major. -/
def nonzeroPts (g : Gray) : List Pt :=
  (List.range g.length).flatMap fun i =>
    (List.range (width g)).filterMap fun j =>
      if pixel g i j ≠ 0 then some (i, j) else none

/-- 8-neighbourhood adjacency of two pixels (truncated subtraction;
includes the pixel itself, which is harmless for region growing). -/
def adjacent (p q : Pt) : Bool :=
  p.1 - q.1 ≤ 1 && q.1 - p.1 ≤ 1 && p.2 - q.2 ≤ 1 && q.2 - p.2 ≤ 1

/-- Region growing: repeatedly move every point of `rest` adjacent to
the component into it, until nothing moves or fuel runs out. -/
def floodAux : Nat → List Pt → List Pt → List Pt × List Pt
  | 0, comp, rest => (comp, rest)
  | n + 1, comp, rest =>
    let newPts := rest.filter fun q => comp.any fun p => adjacent p q
    if newPts.isEmpty then (comp, rest)
    else floodAux n (comp ++ newPts) (rest.filter fun q => !comp.any fun p => adjacent p q)

/-- 8-connected components of a point set. -/
def componentsAux : Nat → List Pt → List Contour
  | 0, _ => []
  | _, [] => []
  | n + 1, p :: rest =>
    match floodAux (rest.length + 1) [p] rest with
    | (comp, rest2) => comp :: componentsAux n rest2

/-- `cv2.findContours(…, cv2.RETR_EXTERNAL, cv2.CHAIN_APPROX_SIMPLE)`
followed by `imutils.grab_contours`, modelled at region granularity:
the 8-connected regions of the binary map's nonzero pixels. -/
def findContours (g : Gray) : List Contour :=
  componentsAux (nonzeroPts g).length.succ (nonzeroPts g)

/-- `cv2.contourArea`, modelled as the region's pixel count. -/
def contourArea (c : Contour) : Nat := c.length

/-- `cv2.boundingRect`: minimal axis-aligned box (x, y, w, h) of a
region, x = least column, y = least row. -/
def boundingRect (c : Contour) : Box :=
  match c with
  | [] => (0, 0, 0, 0)
  | p :: t =>
    let xs := (p :: t).map Prod.snd
    let ys := (p :: t).map Prod.fst
    let x := xs.foldr min p.2
    let y := ys.foldr min p.1
    let xM := xs.foldr max 0
    let yM := ys.foldr max 0
    (x, y, xM + 1 - x, yM + 1 - y)

/-- One pass of the `for c in cnts:` loop body: a contour below
`min_area` is skipped, any other appends its bounding box and marks the
frame text `"Occupied"`. -/
def contourStep (min_area : Nat) (acc : List Box × String) (c : Contour) : List Box × String :=
  if contourArea c < min_area then acc
  else (acc.1 ++ [boundingRect c], "Occupied")

/-- The whole contour loop, starting from `boxes = []` and
`text = "Unoccupied"`. -/
def contourLoop (min_area : Nat) (cnts : List Contour) : List Box × String :=
  cnts.foldl (contourStep min_area) ([], "Unoccupied")

/-- The per-frame pipeline against the reference frame: absolute
difference, binarize at 25, dilate twice, extract contours, filter by
area. -/
def processFrame (ref g : Gray) (min_area : Nat) : List Box × String :=
  contourLoop min_area (findContours (dilate2 (threshold 25 (absdiff ref g))))

section DetectLoop

variable {C : Type} (readImg : String → Option C) (resize : C → C)
variable (cvtGray : C → Gray) (blurGray : Gray → Gray)

/-- `gray = GaussianBlur(cvtColor(imutils.resize(frame, width=500)))`. -/
def normalizeFrame (img : C) : Gray := blurGray (cvtGray (resize img))

/-- The `for i, frame_path in enumerate(frame_paths):` loop.  `i` is the
enumeration counter; an unreadable file (`cv2.imread` returns `None`)
is skipped but still consumes its counter value; the first readable
frame becomes the reference and produces no detection; every later
readable frame is compared against the reference, and `(i, boxes)` is
recorded exactly when the frame's text ended `"Occupied"`. -/
def detectLoop (min_area : Nat) : Nat → List String → Option Gray → List (Nat × List Box)
  | _, [], _ => []
  | i, p :: rest, firstFrame =>
    match readImg p with
    | none => detectLoop min_area (i + 1) rest firstFrame
    | some img =>
      match firstFrame with
      | none => detectLoop min_area (i + 1) rest (some (normalizeFrame resize cvtGray blurGray img))
      | some ref =>
        match processFrame ref (normalizeFrame resize cvtGray blurGray img) min_area with
        | (boxes, text) =>
          if text = "Occupied" then
            (i, boxes) :: detectLoop min_area (i + 1) rest (some ref)
          else
            detectLoop min_area (i + 1) rest (some ref)

end DetectLoop

/-- Lexicographic strict order on code points, as Python compares `str`. -/
def lexLT : List Char → List Char → Bool
  | [], [] => false
  | [], _ :: _ => true
  | _ :: _, [] => false
  | a :: as, b :: bs =>
    if a.toNat < b.toNat then true
    else if b.toNat < a.toNat then false
    else lexLT as bs

def insertStr (a : String) : List String → List String
  | [] => [a]
  | b :: t => if lexLT a.toList b.toList then a :: b :: t else b :: insertStr a t

/-- `frame_paths.sort()`: ascending code-point order. -/
def sortStrings : List String → List String
  | [] => []
  | a :: t => insertStr a (sortStrings t)

/-- The glob pattern `frame_*.jpg`: a prefix `frame_`, anything, a
suffix `.jpg` (`*` may be empty; a shorter string cannot satisfy both,
the sixth character would have to be `_` and `.` at once). -/
def matchesFramePat (s : String) : Bool :=
  "frame_".toList.isPrefixOf s.toList && ".jpg".toList.isSuffixOf s.toList

/-- `glob.glob(os.path.join(frames_directory, "frame_*.jpg"))` followed
by `frame_paths.sort()`, applied to the directory's listing. -/
def sortedFrames (listing : List String) : List String :=
  sortStrings (listing.filter matchesFramePat)

section Detect

variable {C : Type} (readImg : String → Option C) (resize : C → C)
variable (cvtGray : C → Gray) (blurGray : Gray → Gray)

/-- `detect_motion_in_frames(frames_directory, min_area, display=False)`
given the directory's listing: glob, sort, then the enumeration loop
with no reference frame set. -/
def detect_motion_in_frames (listing : List String) (min_area : Nat) : List (Nat × List Box) :=
  detectLoop readImg resize cvtGray blurGray min_area 0 (sortedFrames listing) none

end Detect

/-- The value `mkImg` puts at (i, j): `f i j` in bounds, 0 outside. -/
theorem pixel_mkImg (h w : Nat) (f : Nat → Nat → Nat) (i j : Nat) :
    pixel (mkImg h w f) i j = if i < h ∧ j < w then f i j else 0 := by
  unfold pixel mkImg
  by_cases hi : i < h
  · have hrow : (List.map (fun i => List.map (fun j => f i j) (List.range w))
        (List.range h)).getD i [] = List.map (fun j => f i j) (List.range w) := by
      rw [List.getD_eq_getElem?_getD, List.getElem?_map, List.getElem?_range hi]
      rfl
    rw [hrow]
    by_cases hj : j < w
    · rw [List.getD_eq_getElem?_getD, List.getElem?_map, List.getElem?_range hj]
      simp [hi, hj]
    · rw [List.getD_eq_getElem?_getD, List.getElem?_map,
        List.getElem?_eq_none (by simpa using Nat.le_of_not_lt hj)]
      simp [hi, hj]
  · have hrow : (List.map (fun i => List.map (fun j => f i j) (List.range w))
        (List.range h)).getD i [] = [] := by
      rw [List.getD_eq_getElem?_getD,
        List.getElem?_eq_none (by simpa using Nat.le_of_not_lt hi)]
      rfl
    rw [hrow]
    simp [hi]

/-- An image every pixel of which reads 0. -/
abbrev AllZero (g : Gray) : Prop := ∀ i j, pixel g i j = 0

theorem allZero_absdiff_self (g : Gray) : AllZero (absdiff g g) := by
  intro i j
  rw [absdiff, pixel_mkImg]
  simp [Nat.dist_self]

theorem allZero_threshold (t : Nat) (g : Gray) (hg : AllZero g) : AllZero (threshold t g) := by
  intro i j
  rw [threshold, pixel_mkImg]
  simp [hg i j]

theorem allZero_dilate1 (g : Gray) (hg : AllZero g) : AllZero (dilate1 g) := by
  intro i j
  rw [dilate1, pixel_mkImg]
  simp [hg]

theorem allZero_dilate2 (g : Gray) (hg : AllZero g) : AllZero (dilate2 g) :=
  allZero_dilate1 _ (allZero_dilate1 _ hg)

theorem nonzeroPts_eq_nil (g : Gray) (hg : AllZero g) : nonzeroPts g = [] := by
  rw [List.eq_nil_iff_forall_not_mem]
  intro p hp
  unfold nonzeroPts at hp
  simp only [List.mem_flatMap, List.mem_filterMap, List.mem_range] at hp
  obtain ⟨i, _, j, _, hj⟩ := hp
  rw [hg i j] at hj
  simp at hj

/-- A frame compared against itself yields no boxes and stays
`"Unoccupied"`: the difference image is all-zero, so the binary map is
all-zero, dilation keeps it all-zero, and no contour exists. -/
theorem processFrame_self (g : Gray) (mina : Nat) :
    processFrame g g mina = ([], "Unoccupied") := by
  unfold processFrame findContours
  rw [nonzeroPts_eq_nil _ (allZero_dilate2 _ (allZero_threshold _ _ (allZero_absdiff_self g)))]
  rfl

/-- Once the reference frame is a normalization of `f`, a tail of
frames all reading `f` produces no entry. -/
theorem detectLoop_identical_tail {C : Type} (readImg : String → Option C) (resize : C → C)
    (cvtGray : C → Gray) (blurGray : Gray → Gray) (f : C) (mina : Nat) :
    ∀ (ps : List String) (i : Nat), (∀ p ∈ ps, readImg p = some f) →
      detectLoop readImg resize cvtGray blurGray mina i ps
        (some (normalizeFrame resize cvtGray blurGray f)) = [] := by
  intro ps
  induction ps with
  | nil => intro i _; rfl
  | cons p rest ih =>
    intro i hs
    have hp : readImg p = some f := hs p (by simp)
    simp only [detectLoop, hp]
    rw [processFrame_self]
    simp only [reduceIte]
    exact ih (i + 1) fun q hq => hs q (by simp [hq])

/-- C5: a run of `detect_motion_in_frames` over any number of identical
readable frames produces zero entries: the first frame becomes the
reference and records nothing, and every later frame differs from the
reference by 0 at every pixel, below the binarization threshold 25, so
no contour and no bounding box arises. -/
theorem c5_identical_frames_no_motion {C : Type} (readImg : String → Option C) (resize : C → C)
    (cvtGray : C → Gray) (blurGray : Gray → Gray) (f : C) (listing : List String) (mina : Nat)
    (hread : ∀ p ∈ sortedFrames listing, readImg p = some f) :
    detect_motion_in_frames readImg resize cvtGray blurGray listing mina = [] := by
  unfold detect_motion_in_frames
  revert hread
  generalize sortedFrames listing = ps
  intro hread
  cases ps with
  | nil => rfl
  | cons p rest =>
    have hp : readImg p = some f := hread p (by simp)
    simp only [detectLoop, hp]
    exact detectLoop_identical_tail readImg resize cvtGray blurGray f mina rest 1
      fun q hq => hread q (by simp [hq])

/-- A readable-everywhere image source yielding the same placeholder
frame for every file, for the C5 witness. -/
def readAllSame : String → Option Nat := fun _ => some 0

/-- A toy grayscale conversion for the witnesses. -/
def toyCvt : Nat → Gray := fun v => if v = 0 then [[0, 0], [0, 0]] else [[100, 100], [100, 100]]

theorem c5_witness :
    (∀ p ∈ sortedFrames ["frame_00000.jpg", "frame_00001.jpg", "frame_00002.jpg"],
        readAllSame p = some 0) ∧
    detect_motion_in_frames readAllSame id toyCvt id
      ["frame_00000.jpg", "frame_00001.jpg", "frame_00002.jpg"] 500 = [] :=
  ⟨by decide,
   c5_identical_frames_no_motion readAllSame id toyCvt id 0
     ["frame_00000.jpg", "frame_00001.jpg", "frame_00002.jpg"] 500 (by decide)⟩

/-- The contour loop starting from an arbitrary accumulator: it appends
the bounding boxes of the contours meeting `min_area` in discovery
order, and the text is `"Occupied"` exactly when one of them exists. -/
theorem contourLoop_foldl (mina : Nat) :
    ∀ (cnts : List Contour) (acc : List Box × String),
      List.foldl (contourStep mina) acc cnts =
        (acc.1 ++ ((cnts.filter fun c => decide (mina ≤ contourArea c)).map boundingRect),
         if (cnts.filter fun c => decide (mina ≤ contourArea c)).isEmpty then acc.2
         else "Occupied") := by
  intro cnts
  induction cnts with
  | nil => intro acc; simp
  | cons c rest ih =>
    intro acc
    rw [List.foldl_cons, ih]
    by_cases h : contourArea c < mina
    · have hd : decide (mina ≤ contourArea c) = false := by
        simpa using Nat.not_le_of_lt h
      simp [contourStep, h, hd]
    · have hd : decide (mina ≤ contourArea c) = true := by
        simpa using Nat.le_of_not_lt h
      simp [contourStep, h, hd]

/-- The surviving boxes of a frame: bounding boxes of the contours of
the dilated binary difference map whose area meets `min_area`, in
discovery order. -/
def survivors (ref g : Gray) (mina : Nat) : List Box :=
  ((findContours (dilate2 (threshold 25 (absdiff ref g)))).filter
    fun c => decide (mina ≤ contourArea c)).map boundingRect

theorem processFrame_eq_survivors (ref g : Gray) (mina : Nat) :
    processFrame ref g mina =
      (survivors ref g mina,
       if (survivors ref g mina).isEmpty then "Unoccupied" else "Occupied") := by
  unfold processFrame contourLoop survivors
  rw [contourLoop_foldl]
  simp [List.isEmpty_iff, List.map_eq_nil_iff]

section ClosedForms

variable {C : Type} (readImg : String → Option C) (resize : C → C)
variable (cvtGray : C → Gray) (blurGray : Gray → Gray)

/-- What one enumerated path contributes to the detection list once the
reference frame is `ref`. -/
def entryFor (mina : Nat) (ref : Gray) (np : Nat × String) : Option (Nat × List Box) :=
  match readImg np.2 with
  | none => none
  | some img =>
    match processFrame ref (normalizeFrame resize cvtGray blurGray img) mina with
    | (boxes, text) => if text = "Occupied" then some (np.1, boxes) else none

/-- With the reference frame set, the loop is a `filterMap` of
`entryFor` over the enumerated remaining paths. -/
theorem detectLoop_some_eq (mina : Nat) (ref : Gray) :
    ∀ (ps : List String) (i : Nat),
      detectLoop readImg resize cvtGray blurGray mina i ps (some ref) =
        (List.enumFrom i ps).filterMap
          (entryFor readImg resize cvtGray blurGray mina ref) := by
  intro ps
  induction ps with
  | nil => intro i; rfl
  | cons p rest ih =>
    intro i
    rw [List.enumFrom_cons, List.filterMap_cons]
    simp only [detectLoop]
    cases hp : readImg p with
    | none =>
      have he : entryFor readImg resize cvtGray blurGray mina ref (i, p) = none := by
        simp [entryFor, hp]
      rw [he, ih (i + 1)]
    | some img =>
      rcases hpf : processFrame ref (normalizeFrame resize cvtGray blurGray img) mina
        with ⟨boxes, text⟩
      have he : entryFor readImg resize cvtGray blurGray mina ref (i, p) =
          if text = "Occupied" then some (i, boxes) else none := by
        simp [entryFor, hp, hpf]
      by_cases ht : text = "Occupied"
      · rw [he, if_pos ht, ih (i + 1)]
        simp [hpf, ht]
      · rw [he, if_neg ht, ih (i + 1)]
        simp [hpf, ht]

/-- C6: with a reference frame in place, the detection loop records,
for each enumerated readable frame, the entry `(i, boxes)` exactly when
the list of boxes surviving the `min_area` filter is non-empty —
regions below `min_area` are discarded by the filter, and the recorded
boxes are the survivors' bounding boxes in contour discovery order. -/
theorem c6_min_area_filter_governs_entries (mina : Nat) (ref : Gray) (ps : List String) (i : Nat) :
    detectLoop readImg resize cvtGray blurGray mina i ps (some ref) =
      (List.enumFrom i ps).filterMap fun np =>
        match readImg np.2 with
        | none => none
        | some img =>
          if (survivors ref (normalizeFrame resize cvtGray blurGray img) mina).isEmpty then
            none
          else
            some (np.1, survivors ref (normalizeFrame resize cvtGray blurGray img) mina) := by
  rw [detectLoop_some_eq]
  apply List.filterMap_congr
  intro np _
  unfold entryFor
  cases hp : readImg np.2 with
  | none => rfl
  | some img =>
    dsimp only
    rw [processFrame_eq_survivors]
    by_cases hs : (survivors ref (normalizeFrame resize cvtGray blurGray img) mina).isEmpty
    · simp [hs]
    · simp [hs]

/-- Every entry the loop records carries a frame number at least the
current enumeration counter. -/
theorem detectLoop_mem_fst_le (mina : Nat) :
    ∀ (ps : List String) (i : Nat) (ff : Option Gray),
      ∀ e ∈ detectLoop readImg resize cvtGray blurGray mina i ps ff, i ≤ e.1 := by
  intro ps
  induction ps with
  | nil =>
    intro i ff e he
    simp [detectLoop] at he
  | cons p rest ih =>
    intro i ff e he
    simp only [detectLoop] at he
    cases hp : readImg p with
    | none =>
      rw [hp] at he
      exact Nat.le_of_succ_le (ih (i + 1) ff e he)
    | some img =>
      rw [hp] at he
      dsimp only at he
      cases ff with
      | none => exact Nat.le_of_succ_le (ih (i + 1) _ e he)
      | some ref =>
        dsimp only at he
        rcases hpf : processFrame ref (normalizeFrame resize cvtGray blurGray img) mina
          with ⟨boxes, text⟩
        rw [hpf] at he
        dsimp only at he
        by_cases ht : text = "Occupied"
        · rw [if_pos ht] at he
          rcases List.mem_cons.1 he with h | h
          · subst h; exact le_rfl
          · exact Nat.le_of_succ_le (ih (i + 1) _ e h)
        · rw [if_neg ht] at he
          exact Nat.le_of_succ_le (ih (i + 1) _ e he)

/-- The recorded frame numbers are strictly increasing along the list. -/
theorem detectLoop_pairwise_fst (mina : Nat) :
    ∀ (ps : List String) (i : Nat) (ff : Option Gray),
      List.Pairwise (fun a b : Nat × List Box => a.1 < b.1)
        (detectLoop readImg resize cvtGray blurGray mina i ps ff) := by
  intro ps
  induction ps with
  | nil => intro i ff; simp [detectLoop]
  | cons p rest ih =>
    intro i ff
    simp only [detectLoop]
    cases hp : readImg p with
    | none => exact ih (i + 1) ff
    | some img =>
      dsimp only
      cases ff with
      | none => exact ih (i + 1) _
      | some ref =>
        dsimp only
        rcases hpf : processFrame ref (normalizeFrame resize cvtGray blurGray img) mina
          with ⟨boxes, text⟩
        dsimp only
        by_cases ht : text = "Occupied"
        · rw [if_pos ht]
          exact List.pairwise_cons.2
            ⟨fun e he => detectLoop_mem_fst_le readImg resize cvtGray blurGray mina
                rest (i + 1) _ e he,
             ih (i + 1) _⟩
        · rw [if_neg ht]
          exact ih (i + 1) _

/-- C8: entries of a detection run are appended in processing order and
never reordered or revised: the recorded frame numbers are strictly
increasing along the result, and for any two positions of the result,
the earlier position holds the smaller frame number — entry `(i, _)`
precedes `(j, _)` exactly when frame `i` was processed before frame
`j`. -/
theorem c8_detection_order_preserved (listing : List String) (mina : Nat) :
    List.Pairwise (fun a b : Nat × List Box => a.1 < b.1)
      (detect_motion_in_frames readImg resize cvtGray blurGray listing mina) ∧
    ∀ (a b : Fin (detect_motion_in_frames readImg resize cvtGray blurGray listing mina).length),
      a < b ↔
        ((detect_motion_in_frames readImg resize cvtGray blurGray listing mina).get a).1 <
          ((detect_motion_in_frames readImg resize cvtGray blurGray listing mina).get b).1 := by
  have hpw : List.Pairwise (fun a b : Nat × List Box => a.1 < b.1)
      (detect_motion_in_frames readImg resize cvtGray blurGray listing mina) :=
    detectLoop_pairwise_fst readImg resize cvtGray blurGray mina (sortedFrames listing) 0 none
  refine ⟨hpw, fun a b => ⟨fun hab => List.pairwise_iff_get.1 hpw a b hab, fun hab => ?_⟩⟩
  rcases lt_trichotomy a b with h | h | h
  · exact h
  · subst h
    exact absurd hab (lt_irrefl _)
  · exact (lt_asymm hab (List.pairwise_iff_get.1 hpw b a h)).elim

/-- Position (counting unreadable files) and normalization of the first
readable frame in a path list. -/
def findRefAux : List String → Option (Nat × Gray)
  | [] => none
  | p :: rest =>
    match readImg p with
    | some img => some (0, normalizeFrame resize cvtGray blurGray img)
    | none => (findRefAux rest).map fun rg => (rg.1 + 1, rg.2)

/-- Position-based closed form of a detection run over a path list
`ps`: the first readable file — at position `r`, unreadable files
counting — becomes the reference, and the entries are a `filterMap`
over the enumerated positions after `r`. -/
def detectPositions (mina : Nat) (ps : List String) : List (Nat × List Box) :=
  match findRefAux readImg resize cvtGray blurGray ps with
  | none => []
  | some (r, ref) =>
    ((List.enumFrom 0 ps).drop (r + 1)).filterMap
      (entryFor readImg resize cvtGray blurGray mina ref)

theorem detectLoop_none_eq (mina : Nat) :
    ∀ (ps : List String) (i : Nat),
      detectLoop readImg resize cvtGray blurGray mina i ps none =
        match findRefAux readImg resize cvtGray blurGray ps with
        | none => []
        | some (r, ref) =>
          ((List.enumFrom i ps).drop (r + 1)).filterMap
            (entryFor readImg resize cvtGray blurGray mina ref) := by
  intro ps
  induction ps with
  | nil => intro i; rfl
  | cons p rest ih =>
    intro i
    simp only [detectLoop, findRefAux]
    cases hp : readImg p with
    | some img =>
      dsimp only
      rw [detectLoop_some_eq readImg resize cvtGray blurGray mina _ rest (i + 1),
        List.enumFrom_cons]
      rfl
    | none =>
      dsimp only
      rw [ih (i + 1)]
      cases hfr : findRefAux readImg resize cvtGray blurGray rest with
      | none => rfl
      | some rg =>
        rcases rg with ⟨r, ref⟩
        rw [List.enumFrom_cons]
        simp only [Option.map_some']
        rw [List.drop_succ_cons]

end ClosedForms

/-- Decimal digits to a number; `none` on a non-digit or no digits. -/
def digitsToNat : List Char → Option Nat
  | [] => none
  | l =>
    l.foldl
      (fun acc c => match acc with
        | none => none
        | some n => if c.isDigit then some (n * 10 + (c.toNat - 48)) else none)
      (some 0)

/-- The numeric index embedded in a `frame_NNNNN.jpg` file name. -/
def parseIdx (s : String) : Option Nat :=
  digitsToNat ((s.toList.drop 6).take (s.toList.length - 10))

/-- Positions coincide with the parsed filename indices at every entry
of a path list exactly when the parsed indices, in listing order, are
`0, 1, …, k`. -/
theorem parseIdx_positions_iff (ps : List String) :
    (∀ j (h : j < ps.length), parseIdx (ps.get ⟨j, h⟩) = some j) ↔
      ps.map parseIdx = (List.range ps.length).map some := by
  constructor
  · intro h
    refine List.ext_get (by simp) ?_
    intro n h1 h2
    simp only [List.get_eq_getElem, List.getElem_map, List.getElem_range]
    have := h n (by simpa using h1)
    simpa using this
  · intro h j hj
    have h1 : (ps.map parseIdx)[j]? = ((List.range ps.length).map some)[j]? := by rw [h]
    rw [List.getElem?_map, List.getElem?_map, List.getElem?_range hj,
      List.getElem?_eq_getElem hj] at h1
    simpa using h1

/-- An image source for the C9 conjuncts: the file `frame_00000.jpg`
reads as the dark placeholder frame, every other file as the bright
one. -/
def readBright : String → Option Nat :=
  fun s => if s = "frame_00000.jpg" then some 0 else some 1

/-- As `readBright`, but `frame_00001.jpg` is unreadable. -/
def readSkip1 : String → Option Nat :=
  fun s =>
    if s = "frame_00001.jpg" then none
    else if s = "frame_00000.jpg" then some 0 else some 1

/-- C9: the frame number `detect_motion_in_frames` records is the
0-based position of the frame's file in the sorted `frame_*.jpg`
listing — equivalently, the run equals its position-based closed form
`detectPositions`, in which unreadable files still consume a position —
and not the numeric index embedded in the file name: with files
00000/00002/00005 present the recorded numbers are 1 and 2 while the
embedded indices at those positions are 2 and 5; with 00001 unreadable
the entry for 00002 is still recorded at position 2.  Positions and
embedded indices coincide at every file exactly when the parsed
indices, in sorted order, are `0, 1, …, k`. -/
theorem c9_frame_number_is_position_not_filename {C : Type} (readImg : String → Option C)
    (resize : C → C) (cvtGray : C → Gray) (blurGray : Gray → Gray)
    (listing : List String) (mina : Nat) :
    (detect_motion_in_frames readImg resize cvtGray blurGray listing mina =
      detectPositions readImg resize cvtGray blurGray mina (sortedFrames listing)) ∧
    (∀ ps : List String,
      (∀ j (h : j < ps.length), parseIdx (ps.get ⟨j, h⟩) = some j) ↔
        ps.map parseIdx = (List.range ps.length).map some) ∧
    sortedFrames ["frame_00005.jpg", "frame_00000.jpg", "frame_00002.jpg"] =
      ["frame_00000.jpg", "frame_00002.jpg", "frame_00005.jpg"] ∧
    (detect_motion_in_frames readBright id toyCvt id
        ["frame_00005.jpg", "frame_00000.jpg", "frame_00002.jpg"] 1).map Prod.fst = [1, 2] ∧
    parseIdx "frame_00002.jpg" = some 2 ∧ parseIdx "frame_00005.jpg" = some 5 ∧
    ((1 : Nat), (2 : Nat)) ≠ ((2 : Nat), (5 : Nat)) ∧
    (detect_motion_in_frames readSkip1 id toyCvt id
        ["frame_00000.jpg", "frame_00001.jpg", "frame_00002.jpg"] 1).map Prod.fst = [2] := by
  refine ⟨?_, parseIdx_positions_iff, by decide, by decide, by decide, by decide, by decide,
    by decide⟩
  unfold detect_motion_in_frames detectPositions
  exact detectLoop_none_eq readImg resize cvtGray blurGray mina (sortedFrames listing) 0

theorem c9_witness :
    (detect_motion_in_frames readBright id toyCvt id
        ["frame_00005.jpg", "frame_00000.jpg", "frame_00002.jpg"] 1 =
      detectPositions readBright id toyCvt id 1
        (sortedFrames ["frame_00005.jpg", "frame_00000.jpg", "frame_00002.jpg"])) ∧
    (detect_motion_in_frames readBright id toyCvt id
        ["frame_00005.jpg", "frame_00000.jpg", "frame_00002.jpg"] 1).map Prod.fst = [1, 2] :=
  ⟨(c9_frame_number_is_position_not_filename readBright id toyCvt id
      ["frame_00005.jpg", "frame_00000.jpg", "frame_00002.jpg"] 1).1,
   (c9_frame_number_is_position_not_filename readBright id toyCvt id
      ["frame_00005.jpg", "frame_00000.jpg", "frame_00002.jpg"] 1).2.2.2.1⟩

end Detector
